import Mathlib

/-!
Verification of the market-analysis agent.

This file is a shallow embedding of the agent control loop
(src/agent/graph.py), the tool-contract wrapper (src/tools/base.py),
the tool return values (src/tools/product_scraper.py,
competitor_analyzer.py, sentiment_analyzer.py) and the report generator
(src/tools/report_generator.py), together with theorems about the
continuation decision, loop termination, error absorption, result
extraction, the step counter and report degradation on bad input.

Modelling conventions:
- transcript messages are the langchain message objects actually used by
  the code (System/Human/AI/Tool), carrying exactly the attributes the
  code reads;
- the language model is an external collaborator and is a parameter (a
  function from the message list it is shown to a reply);
- the graph runtime (StateGraph.invoke and the prebuilt ToolNode) is not
  repository code, so it is modelled from the specification where noted;
- Python exceptions are modelled with Except, carrying the str() of the
  exception.
-/

namespace MarketAnalysis

/-- One tool-call request emitted by the model (a langchain tool_call
entry: name, args, id). Arguments are kept as an opaque serialized
string, since the control loop never inspects them. -/
structure ToolCall where
  name : String
  args : String
  callId : String
deriving DecidableEq, Repr

/-- A transcript message (langchain_core.messages): SystemMessage,
HumanMessage, AIMessage (which has the tool_calls attribute) or
ToolMessage (which has the originating tool name and an error status;
status error corresponds to a failed tool-result). -/
inductive Msg where
  | system (content : String)
  | human (content : String)
  | ai (content : String) (tool_calls : List ToolCall)
  | tool (name : String) (content : String) (is_error : Bool)
deriving DecidableEq, Repr

/-- The content attribute, present on every message kind. -/
def Msg.content : Msg → String
  | .system c => c
  | .human c => c
  | .ai c _ => c
  | .tool _ c _ => c

/-- The tool_calls attribute: the requests of a model message, and the
empty list for the message kinds that have no such attribute. -/
def Msg.tool_calls : Msg → List ToolCall
  | .ai _ tcs => tcs
  | _ => []

/-- Message-kind tests. -/
def Msg.isModel : Msg → Bool
  | .ai _ _ => true
  | _ => false

def Msg.isSystem : Msg → Bool
  | .system _ => true
  | _ => false

def Msg.isHuman : Msg → Bool
  | .human _ => true
  | _ => false

def Msg.isToolResult : Msg → Bool
  | .tool _ _ _ => true
  | _ => false

/-- Number of model messages in a transcript (= model turns taken). -/
def countModelMsgs (msgs : List Msg) : Nat := msgs.countP Msg.isModel

/-- Number of system messages in a transcript. -/
def countSystemMsgs (msgs : List Msg) : Nat := msgs.countP Msg.isSystem

/-- Number of human messages in a transcript. -/
def countHumanMsgs (msgs : List Msg) : Nat := msgs.countP Msg.isHuman

/-- Number of tool-result messages in a transcript. -/
def countToolMsgs (msgs : List Msg) : Nat := msgs.countP Msg.isToolResult

/-- Outcome of the conditional edge after the agent node: cont stands for
the literal "continue" (go to the tools node), stop for "end". -/
inductive Decision where
  | cont
  | stop
deriving DecidableEq, Repr

/-- MarketAnalysisGraph._should_continue (graph.py:75-81): inspect the
last transcript message; "continue" when it has a nonempty tool_calls
attribute, "end" otherwise. The hasattr test selects model messages, and
Python truthiness of the list is nonemptiness. none models the
IndexError raised on an empty message list. -/
def shouldContinue (msgs : List Msg) : Option Decision :=
  match msgs.getLast? with
  | none => none
  | some (.ai _ tcs) => some (if tcs.isEmpty then .stop else .cont)
  | some _ => some .stop

/-- ToolError (base.py:18-24): carries the tool name and the message of
the original exception. -/
structure ToolError where
  tool_name : String
  message : String
deriving DecidableEq, Repr

/-- The string form of a ToolError (base.py:24). -/
def ToolError.toStr (e : ToolError) : String :=
  "[" ++ e.tool_name ++ "] " ++ e.message

/-- tool_error_handler (base.py:27-44): wraps a tool body; a successful
result passes through unchanged, and any exception raised inside the
body (modelled as .error with the exception text) is intercepted and
rethrown as a ToolError carrying the tool name and the original failure
message. Logging and the duration measurement are side effects with no
bearing on the returned value and are not modelled. -/
def tool_error_handler {α β : Type} (tool_name : String)
    (f : α → Except String β) : α → Except ToolError β :=
  fun x =>
    match f x with
    | .ok y => .ok y
    | .error e => .error ⟨tool_name, e⟩

/-- The language-model collaborator: from the message list it is shown
to a reply (content and requested tool calls); llm.invoke returns an
AIMessage, whose two attributes read by the loop are exactly these. -/
def LLM : Type := List Msg → String × List ToolCall

/-- The fixed system prompt of the agent node (graph.py:58-68). -/
def system_prompt : String :=
  "You are an expert e-commerce market analysis agent.\n\nYou must analyze the requested product using the available tools in this order:\n1. scrape_product_data - to collect product data\n2. analyze_competitors - to analyze competition (use the product category)\n3. analyze_sentiment - to evaluate customer sentiment\n4. generate_report - to create the final report (pass data as JSON)\n\nExecute each tool sequentially and use the results for the final report.\nIMPORTANT: You MUST call generate_report as the final step. Do not just summarize the results yourself.\nIf you have called generate_report, your job is done."

/-- MarketAnalysisGraph._agent_node (graph.py:56-73): prepend the fixed
system prompt to the transcript, invoke the model, and return its reply
as the model message to append to the transcript. -/
def agent_node (llm : LLM) (msgs : List Msg) : Msg :=
  let r := llm (Msg.system system_prompt :: msgs)
  Msg.ai r.1 r.2

/-- The tool registry: names bound to bodies; a body maps the serialized
arguments to a result string or a raised exception text. -/
def Registry : Type := List (String × (String → Except String String))

/-- Modelled from the spec: dispatch of one tool-call request inside the
tool-execution node. The node is built from a prebuilt library component
(ToolNode(self.tools), graph.py:40) whose code is not part of the
repository, so its behavior is modelled from the specification: an
unknown tool name becomes a failed tool-result whose error text mentions
the requested name, a raised tool exception becomes a failed tool-result
carrying the failure text, and a success becomes an ordinary
tool-result; no exception escapes the node. -/
def dispatch_tool_call (reg : Registry) (tc : ToolCall) : Msg :=
  match List.lookup tc.name reg with
  | none => Msg.tool tc.name ("Error: " ++ tc.name ++ " is not a valid tool.") true
  | some f =>
    match f tc.args with
    | .ok out => Msg.tool tc.name out false
    | .error e => Msg.tool tc.name ("Error: " ++ e ++ " Please fix your mistakes.") true

/-- Modelled from the spec: the tool-execution node dispatches every
requested tool of the turn in order and yields the tool-result messages
in that same order. -/
def tool_node (reg : Registry) (tcs : List ToolCall) : List Msg :=
  tcs.map (dispatch_tool_call reg)

/-- Modelled from the spec: forced termination when the turn ceiling is
hit (the LoopBudgetExceeded error; the repository reaches it through the
graph runtime recursion limit, which is not repository code). -/
inductive LoopError where
  | loopBudgetExceeded
deriving DecidableEq, Repr

/-- Modelled from the spec: execution of the compiled graph
(self.graph.invoke, graph.py:96; wiring graph.py:35-54). One iteration
per model turn: the agent node appends the model message, then the
conditional edge _should_continue either ends (yielding the final
transcript) or runs the tool node and returns control to the agent node
unconditionally (graph.py:52). The fuel argument is the maximum number
of model invocations; exhausting it is the forced-termination error. -/
def invoke_loop (llm : LLM) (reg : Registry) :
    Nat → List Msg → Except LoopError (List Msg)
  | 0, _ => .error .loopBudgetExceeded
  | n + 1, msgs =>
    let resp := agent_node llm msgs
    let msgs2 := msgs ++ [resp]
    match shouldContinue msgs2 with
    | some .cont => invoke_loop llm reg n (msgs2 ++ tool_node reg resp.tool_calls)
    | _ => .ok msgs2

/-- The initial transcript seeded by run (graph.py:85-94): exactly one
human message naming the product. -/
def initial_messages (product_name : String) : List Msg :=
  [Msg.human ("Analyze the market for the product: " ++ product_name)]

/-- Python substring test (the in operator on str). -/
def strContains (s pat : String) : Bool := decide (pat.toList <:+: s.toList)

/-- The signature marker scanned for in message contents
(graph.py:108). -/
def report_marker : String := "📊 Market Analysis Report"

/-- First extraction pass (graph.py:100-115) over the reversed
transcript: skip a model message whose first tool call is
generate_report; take the content of the first remaining message that
contains the marker. The second marker test of the source (graph.py:113)
repeats the first one (graph.py:108) on the same message and can never
fire on its own. -/
def marker_pass : List Msg → Option String
  | [] => none
  | m :: rest =>
    match m with
    | .ai c (tc :: tcs) =>
      if tc.name = "generate_report" then marker_pass rest
      else if strContains (Msg.ai c (tc :: tcs)).content report_marker then
        some (Msg.ai c (tc :: tcs)).content
      else marker_pass rest
    | m' =>
      if strContains m'.content report_marker then some m'.content
      else marker_pass rest

/-- Second extraction pass (graph.py:117-122) over the reversed
transcript: the content of the first tool-result message named
generate_report. -/
def genreport_pass : List Msg → Option String
  | [] => none
  | .tool n c _ :: rest =>
    if n = "generate_report" then some c else genreport_pass rest
  | _ :: rest => genreport_pass rest

/-- The result extraction of run (graph.py:98-126): the marker scan
first, then the generate_report tool-result scan, then the content of
the last message; the empty string on an empty transcript. A pass result
is kept only when it is not the empty string (Python truthiness of
final_report). -/
def extract_final_report (msgs : List Msg) : String :=
  let r1 := (marker_pass msgs.reverse).getD ""
  let r2 := if r1 = "" then (genreport_pass msgs.reverse).getD "" else r1
  if r2 = "" then ((msgs.getLast?).map Msg.content).getD "" else r2

/-- The mapping returned by run (graph.py:128-132). -/
structure RunResult where
  product_name : String
  report : String
  steps_executed : Nat
deriving DecidableEq, Repr

/-- MarketAnalysisGraph.run (graph.py:83-132): seed the transcript,
execute the graph, extract the final report; steps_executed is the
length of the final transcript (len of the messages list, graph.py:131).
A forced termination raised by the graph runtime propagates to the
caller. -/
def run (llm : LLM) (reg : Registry) (max_turns : Nat)
    (product_name : String) : Except LoopError RunResult :=
  match invoke_loop llm reg max_turns (initial_messages product_name) with
  | .error e => .error e
  | .ok msgs => .ok ⟨product_name, extract_final_report msgs, msgs.length⟩

/-- A Python number (int or float) as an exact fraction: numerator and
positive denominator, not necessarily reduced. Exact arithmetic stands
in for Python floats; none of the verified properties depends on float
rounding. -/
structure PyNum where
  n : ℤ
  d : ℕ
deriving DecidableEq, Repr

/-- An integer as a PyNum. -/
def PyNum.ofInt (k : ℤ) : PyNum := ⟨k, 1⟩

/-- A rational as a PyNum. -/
def PyNum.ofRat (q : ℚ) : PyNum := ⟨q.num, q.den⟩

/-- Multiplication of Python numbers. -/
def PyNum.mul (a b : PyNum) : PyNum := ⟨a.n * b.n, a.d * b.d⟩

/-- Whether the number is zero (denominators are positive in every
constructed value). -/
def PyNum.isZero (a : PyNum) : Bool := a.n == 0

/-- A parsed JSON value (the result of json.loads), also used as the
universal value type for tool result payloads. -/
inductive Jv where
  | null
  | bool (b : Bool)
  | num (q : PyNum)
  | str (s : String)
  | arr (xs : List Jv)
  | obj (kvs : List (String × Jv))
deriving Inhabited

/-- Whether a value is a mapping (a Python dict). -/
def Jv.isObj : Jv → Bool
  | .obj _ => true
  | _ => false

/-- Python dict.get(k, default) on a parsed value: an AttributeError when
the receiver is not a dict (only dicts have a get method). -/
def Jv.get (v : Jv) (k : String) (d : Jv) : Except String Jv :=
  match v with
  | .obj kvs => .ok ((List.lookup k kvs).getD d)
  | _ => .error "AttributeError: get on a non-dict value"

/-- Python truthiness of a parsed value. -/
def Jv.truthy : Jv → Bool
  | .null => false
  | .bool b => b
  | .num q => !q.isZero
  | .str s => decide (s ≠ "")
  | .arr xs => !xs.isEmpty
  | .obj kvs => !kvs.isEmpty

/-- Python str() of a parsed value as interpolated into the report
f-strings. Number printing is approximated (integers exactly, other
fractions as n/d) and container printing is abbreviated; no verified
property evaluates these cases. -/
def Jv.toStr : Jv → String
  | .null => "None"
  | .bool b => if b then "True" else "False"
  | .num q => if q.d = 1 then toString q.n else
      toString q.n ++ "/" ++ toString q.d
  | .str s => s
  | .arr _ => "[...]"
  | .obj _ => "\x7b...\x7d"

/-- A parsed value used where Python arithmetic or numeric formatting
expects a number: numbers pass, booleans coerce to 0 or 1 (Python bool
is an int), anything else is a runtime failure. (For a str the source
fails one line later, inside the f-string format specifier; the net
outcome, a raised exception, is the same.) -/
def Jv.asNum : Jv → Except String PyNum
  | .num q => .ok q
  | .bool b => .ok (.ofInt (if b then 1 else 0))
  | _ => .error "TypeError: a number is required"

/-- A parsed value iterated over by a Python for loop or list slice:
only arrays are accepted. (Iterating a str or dict is approximated as a
failure; no verified property evaluates that case.) -/
def Jv.asList : Jv → Except String (List Jv)
  | .arr xs => .ok xs
  | _ => .error "TypeError: value is not iterable"

/-- Nearest-integer rounding of a Python number (ties rounded half up),
with floor division. -/
def PyNum.round (q : PyNum) : ℤ := Int.fdiv (2 * q.n + q.d) (2 * q.d)

/-- Python format specifier .0f: nearest integer (ties approximated by
rounding half up; only the exact value 0 is ever evaluated in the
theorems below). -/
def fmt0 (q : PyNum) : String := toString q.round

/-- Python format specifier .1f (same tie approximation as fmt0). -/
def fmt1 (q : PyNum) : String :=
  let k := (q.mul (.ofInt 10)).round
  let sign := if k < 0 then "-" else ""
  let m := k.natAbs
  sign ++ toString (m / 10) ++ "." ++ toString (m % 10)

/-- Python format specifier .2f (same tie approximation as fmt0). -/
def fmt2 (q : PyNum) : String :=
  let k := (q.mul (.ofInt 100)).round
  let sign := if k < 0 then "-" else ""
  let m := k.natAbs
  sign ++ toString (m / 100) ++ "." ++
    (if m % 100 < 10 then "0" else "") ++ toString (m % 100)

/-- Python str.strip() with no argument: remove leading and trailing
whitespace. -/
def pyStrip (s : String) : String :=
  ⟨((s.toList.dropWhile Char.isWhitespace).reverse.dropWhile
      Char.isWhitespace).reverse⟩

/-- ReportGeneratorService._parse_json_safely (report_generator.py:26-34)
applied to a string argument: the argument is represented by its
json.loads outcome, where none models a string that is not valid JSON;
a failed parse yields the empty mapping. -/
def parse_json_safely : Option Jv → Jv
  | some v => v
  | none => .obj []

/-- ReportGeneratorService._generate_executive_summary
(report_generator.py:36-51). -/
def generate_executive_summary (product sentiment : Jv) :
    Except String String := do
  let product_name ← product.get "name" (.str "Analyzed Product")
  let description ← product.get "description"
    (.str "A consumer product available across major North American e-commerce platforms.")
  let score ← sentiment.get "overall_score" (.str "N/A")
  let rate ← sentiment.get "recommendation_rate" (.num (.ofInt 0))
  let recommendation := (← rate.asNum).mul (.ofInt 100)
  pure ("\n### Executive Summary\n\n**" ++ product_name.toStr ++
    "** presents a favorable market positioning with a customer satisfaction score of **" ++
    score.toStr ++ "/5** and a recommendation rate of **" ++
    fmt0 recommendation ++ "%**.\n\n**Product Description:** " ++
    description.toStr ++
    "\n\nThe analysis reveals significant opportunities for price positioning optimization and customer experience improvement.\n")

/-- ReportGeneratorService._generate_product_section
(report_generator.py:53-79). -/
def generate_product_section (product : Jv) : Except String String := do
  if !product.truthy then
    return "### Product Data\n*Data not available*\n"
  let price_range ← product.get "price_range" (.obj [])
  let sellers ← (← product.get "top_sellers" (.arr [])).asList
  let parts ← (sellers.take 3).mapM (fun s => do
    let n ← s.get "name" (.str "N/A")
    let p ← s.get "price" (.str "N/A")
    pure ("  - " ++ n.toStr ++ ": $" ++ p.toStr ++ "\n"))
  let sellers_text := String.join parts
  let nm ← product.get "name" (.str "N/A")
  let avg ← product.get "average_price" (.str "N/A")
  let pmin ← price_range.get "min" (.str "N/A")
  let pmax ← price_range.get "max" (.str "N/A")
  let avail ← product.get "availability" (.str "N/A")
  let cnt ← product.get "sellers_count" (.str "N/A")
  let cat ← product.get "category" (.str "N/A")
  pure ("\n### 1. Product Analysis\n\n| Metric | Value |\n|--------|-------|\n| **Product** | " ++
    nm.toStr ++ " |\n| **Average Price** | $" ++ avg.toStr ++
    " |\n| **Price Range** | $" ++ pmin.toStr ++ " - $" ++ pmax.toStr ++
    " |\n| **Availability** | " ++ avail.toStr ++
    " |\n| **Number of Sellers** | " ++ cnt.toStr ++
    " |\n| **Category** | " ++ cat.toStr ++
    " |\n\n**Top Sellers:**\n" ++ sellers_text ++ "\n")

/-- ReportGeneratorService._generate_competitor_section
(report_generator.py:81-112). -/
def generate_competitor_section (competitors : Jv) :
    Except String String := do
  if !competitors.truthy then
    return "### 2. Competitive Analysis\n*Data not available*\n"
  let comp_list ← (← competitors.get "competitors" (.arr [])).asList
  let concentration ← competitors.get "market_concentration" (.str "N/A")
  let rows ← (comp_list.take 5).mapM (fun c => do
    let n ← c.get "name" (.str "N/A")
    let share ← (← c.get "market_share" (.num (.ofInt 0))).asNum
    let strat ← c.get "price_strategy" (.str "N/A")
    let seg ← c.get "target_segment" (.str "N/A")
    pure ("| " ++ n.toStr ++ " | " ++ fmt1 share ++ "% | " ++
      strat.toStr ++ " | " ++ seg.toStr ++ " |\n"))
  let comp_table :=
    "| Competitor | Market Share | Strategy | Segment |\n|------------|--------------|----------|----------|\n" ++
    String.join rows
  let opportunities ← (← competitors.get "opportunities" (.arr [])).asList
  let opp_text := String.intercalate "\n"
    (opportunities.map fun o => "- " ++ o.toStr)
  let threats ← (← competitors.get "threats" (.arr [])).asList
  let threat_text := String.intercalate "\n"
    (threats.map fun t => "- " ++ t.toStr)
  pure ("\n### 2. Competitive Analysis\n\n**Market Concentration:** " ++
    concentration.toStr ++ "\n\n" ++ comp_table ++
    "\n\n**Identified Opportunities:**\n" ++ opp_text ++
    "\n\n**Threats:**\n" ++ threat_text ++ "\n")

/-- ReportGeneratorService._generate_sentiment_section
(report_generator.py:114-152). -/
def generate_sentiment_section (sentiment : Jv) :
    Except String String := do
  if !sentiment.truthy then
    return "### 3. Customer Sentiment Analysis\n*Data not available*\n"
  let breakdown ← sentiment.get "sentiment_breakdown" (.obj [])
  let themes ← sentiment.get "key_themes" (.obj [])
  let positive_themes ← (← themes.get "positive" (.arr [])).asList
  let posParts ← (positive_themes.take 4).mapM (fun t => do
    let th ← t.get "theme" (.str "N/A")
    let im ← t.get "impact_score" (.num (.ofInt 0))
    let mc ← t.get "mention_count" (.num (.ofInt 0))
    pure ("- **" ++ th.toStr ++ "** (impact: " ++ im.toStr ++
      "/10, mentions: " ++ mc.toStr ++ ")"))
  let pos_text := String.intercalate "\n" posParts
  let negative_themes ← (← themes.get "negative" (.arr [])).asList
  let negParts ← (negative_themes.take 3).mapM (fun t => do
    let th ← t.get "theme" (.str "N/A")
    let im ← t.get "impact_score" (.num (.ofInt 0))
    let mc ← t.get "mention_count" (.num (.ofInt 0))
    pure ("- **" ++ th.toStr ++ "** (impact: " ++ im.toStr ++
      "/10, mentions: " ++ mc.toStr ++ ")"))
  let neg_text := String.intercalate "\n" negParts
  let score ← sentiment.get "overall_score" (.str "N/A")
  let total ← sentiment.get "total_reviews" (.str "N/A")
  let rate := (← (← sentiment.get "recommendation_rate" (.num (.ofInt 0))).asNum).mul (.ofInt 100)
  let nps ← sentiment.get "nps_score" (.str "N/A")
  let trend ← sentiment.get "trend" (.str "N/A")
  let conf ← sentiment.get "confidence_level" (.str "N/A")
  let pos := (← (← breakdown.get "positive" (.num (.ofInt 0))).asNum).mul (.ofInt 100)
  let neg := (← (← breakdown.get "negative" (.num (.ofInt 0))).asNum).mul (.ofInt 100)
  let neu := (← (← breakdown.get "neutral" (.num (.ofInt 0))).asNum).mul (.ofInt 100)
  pure ("\n### 3. Customer Sentiment Analysis\n\n| Indicator | Value |\n|-----------|-------|\n| **Overall Score** | " ++
    score.toStr ++ "/5 |\n| **Number of Reviews** | " ++ total.toStr ++
    " |\n| **Recommendation Rate** | " ++ fmt0 rate ++
    "% |\n| **NPS** | " ++ nps.toStr ++ " |\n| **Trend** | " ++
    trend.toStr ++ " |\n| **Confidence** | " ++ conf.toStr ++
    " |\n\n**Sentiment Distribution:**\n- Positive: " ++ fmt0 pos ++
    "%\n- Negative: " ++ fmt0 neg ++ "%\n- Neutral: " ++ fmt0 neu ++
    "%\n\n**Major Positive Themes:**\n" ++ pos_text ++
    "\n\n**Areas for Improvement:**\n" ++ neg_text ++ "\n")

/-- ReportGeneratorService._generate_recommendations
(report_generator.py:154-194). -/
def generate_recommendations (product competitors sentiment : Jv) :
    Except String String := do
  let mut recs : List String := []
  if product.truthy then
    let price_range ← product.get "price_range" (.obj [])
    if price_range.truthy then
      let min_price ← (← price_range.get "min" (.num (.ofInt 0))).asNum
      recs := recs ++ ["**Pricing Strategy:** Position price around $" ++
        fmt2 (min_price.mul ⟨11, 10⟩) ++
        " to be competitive while preserving margins"]
  if competitors.truthy then
    let opportunities ← (← competitors.get "opportunities" (.arr [])).asList
    match opportunities with
    | o :: _ => recs := recs ++ ["**Market Opportunity:** " ++ o.toStr]
    | [] => pure ()
  if sentiment.truthy then
    let negative_themes ←
      (← (← sentiment.get "key_themes" (.obj [])).get "negative" (.arr [])).asList
    match negative_themes with
    | t :: _ =>
      let top_issue ← t.get "theme" (.str "weaknesses")
      recs := recs ++ ["**Priority Improvement:** Address the " ++
        top_issue.toStr ++ " issue identified in reviews"]
    | [] => pure ()
    let positive_themes ←
      (← (← sentiment.get "key_themes" (.obj [])).get "positive" (.arr [])).asList
    match positive_themes with
    | t :: _ =>
      let strength ← t.get "theme" (.str "strengths")
      recs := recs ++ ["**Competitive Advantage:** Capitalize on " ++
        strength.toStr ++ " in marketing communications"]
    | [] => pure ()
  recs := recs ++
    ["**Distribution:** Strengthen presence on high-traffic platforms (Amazon, Walmart, Target, Best Buy)"]
  recs := recs ++
    ["**Retention:** Implement post-purchase follow-up program to improve NPS"]
  let rec_text := String.intercalate "\n"
    ((recs.take 6).enum.map fun p => toString (p.1 + 1) ++ ". " ++ p.2)
  pure ("\n### 4. Strategic Recommendations\n\n" ++ rec_text ++ "\n")

/-- ReportGeneratorService._generate_action_plan
(report_generator.py:196-210). -/
def generate_action_plan : String :=
  "\n### 5. Action Plan\n\n| Priority | Action | Timeline | Expected Impact |\n|----------|--------|----------|-----------------|\n| 🔴 High | Pricing strategy adjustment | 2 weeks | +15% conversions |\n| 🟠 Medium | Customer service improvement | 1 month | +10 pts NPS |\n| 🟢 Normal | Product listing optimization | 3 weeks | +8% traffic |\n| 🟢 Normal | Loyalty program | 2 months | +20% retention |\n\n---\n*Report automatically generated by Market Analysis Agent*\n"

/-- ReportGeneratorService.generate (report_generator.py:212-243). Each
of the three string arguments is represented by its json.loads outcome
(none models a string that is not valid JSON); the generation date
(datetime.now(), report_generator.py:223) is a parameter. -/
def generate (product_data competitor_data sentiment_data : Option Jv)
    (now : String) : Except String String := do
  let product := parse_json_safely product_data
  let competitors := parse_json_safely competitor_data
  let sentiment := parse_json_safely sentiment_data
  let e ← generate_executive_summary product sentiment
  let p ← generate_product_section product
  let c ← generate_competitor_section competitors
  let s ← generate_sentiment_section sentiment
  let r ← generate_recommendations product competitors sentiment
  pure (pyStrip ("\n# 📊 Market Analysis Report\n\n**Generation Date:** " ++
    now ++ "\n\n**Market:** North America\n\n---\n\n" ++ e ++
    "\n\n---\n\n" ++ p ++ "\n\n" ++ c ++ "\n\n" ++ s ++ "\n\n" ++ r ++
    "\n\n" ++ generate_action_plan ++ "\n"))

/-- The generate_report tool (report_generator.py:246-272): its return
value is the generated Markdown report, a bare string. -/
def generate_report_value (product_data competitor_data sentiment_data :
    Option Jv) (now : String) : Except String Jv :=
  (generate product_data competitor_data sentiment_data now).map .str

/-- ProductInfo (product_scraper.py:15-26); floats as rationals. -/
structure ProductInfo where
  name : String
  description : String
  average_price : ℚ
  price_range : List (String × ℚ)
  availability : String
  sellers_count : Nat
  category : String
  top_sellers : List Jv
  scraped_at : String
  confidence_score : ℚ

/-- pydantic model_dump of a ProductInfo: the field mapping. -/
def ProductInfo.model_dump (p : ProductInfo) : Jv :=
  .obj [("name", .str p.name),
        ("description", .str p.description),
        ("average_price", .num (.ofRat p.average_price)),
        ("price_range", .obj (p.price_range.map fun kv => (kv.1, Jv.num (.ofRat kv.2)))),
        ("availability", .str p.availability),
        ("sellers_count", .num (.ofInt p.sellers_count)),
        ("category", .str p.category),
        ("top_sellers", .arr p.top_sellers),
        ("scraped_at", .str p.scraped_at),
        ("confidence_score", .num (.ofRat p.confidence_score))]

/-- CompetitorProfile (competitor_analyzer.py:15-24). -/
structure CompetitorProfile where
  name : String
  market_share : ℚ
  price_strategy : String
  price_index : ℚ
  strengths : List String
  weaknesses : List String
  target_segment : String
  online_presence_score : ℚ

/-- pydantic model_dump of a CompetitorProfile. -/
def CompetitorProfile.model_dump (c : CompetitorProfile) : Jv :=
  .obj [("name", .str c.name),
        ("market_share", .num (.ofRat c.market_share)),
        ("price_strategy", .str c.price_strategy),
        ("price_index", .num (.ofRat c.price_index)),
        ("strengths", .arr (c.strengths.map Jv.str)),
        ("weaknesses", .arr (c.weaknesses.map Jv.str)),
        ("target_segment", .str c.target_segment),
        ("online_presence_score", .num (.ofRat c.online_presence_score))]

/-- CompetitorAnalysisResult (competitor_analyzer.py:27-35). -/
structure CompetitorAnalysisResult where
  category : String
  analysis_date : String
  competitors : List CompetitorProfile
  market_concentration : String
  total_market_share_analyzed : ℚ
  opportunities : List String
  threats : List String

/-- pydantic model_dump of a CompetitorAnalysisResult (nested models
dump to nested mappings). -/
def CompetitorAnalysisResult.model_dump (c : CompetitorAnalysisResult) : Jv :=
  .obj [("category", .str c.category),
        ("analysis_date", .str c.analysis_date),
        ("competitors", .arr (c.competitors.map CompetitorProfile.model_dump)),
        ("market_concentration", .str c.market_concentration),
        ("total_market_share_analyzed", .num (.ofRat c.total_market_share_analyzed)),
        ("opportunities", .arr (c.opportunities.map Jv.str)),
        ("threats", .arr (c.threats.map Jv.str))]

/-- SentimentBreakdown (sentiment_analyzer.py:15-19). -/
structure SentimentBreakdown where
  positive : ℚ
  negative : ℚ
  neutral : ℚ

/-- pydantic model_dump of a SentimentBreakdown. -/
def SentimentBreakdown.model_dump (b : SentimentBreakdown) : Jv :=
  .obj [("positive", .num (.ofRat b.positive)),
        ("negative", .num (.ofRat b.negative)),
        ("neutral", .num (.ofRat b.neutral))]

/-- ThemeAnalysis (sentiment_analyzer.py:22-27). -/
structure ThemeAnalysis where
  theme : String
  mention_count : Nat
  sentiment : String
  impact_score : ℚ

/-- pydantic model_dump of a ThemeAnalysis. -/
def ThemeAnalysis.model_dump (t : ThemeAnalysis) : Jv :=
  .obj [("theme", .str t.theme),
        ("mention_count", .num (.ofInt t.mention_count)),
        ("sentiment", .str t.sentiment),
        ("impact_score", .num (.ofRat t.impact_score))]

/-- ReviewSample (sentiment_analyzer.py:30-35). -/
structure ReviewSample where
  text : String
  rating : Nat
  sentiment : String
  date : String

/-- pydantic model_dump of a ReviewSample. -/
def ReviewSample.model_dump (r : ReviewSample) : Jv :=
  .obj [("text", .str r.text),
        ("rating", .num (.ofInt r.rating)),
        ("sentiment", .str r.sentiment),
        ("date", .str r.date)]

/-- SentimentAnalysisResult (sentiment_analyzer.py:38-50). -/
structure SentimentAnalysisResult where
  product : String
  analysis_date : String
  overall_score : ℚ
  total_reviews : Nat
  sentiment_breakdown : SentimentBreakdown
  key_themes : List (String × List ThemeAnalysis)
  recommendation_rate : ℚ
  nps_score : ℤ
  trend : String
  sample_reviews : List ReviewSample
  confidence_level : String

/-- pydantic model_dump of a SentimentAnalysisResult. -/
def SentimentAnalysisResult.model_dump (s : SentimentAnalysisResult) : Jv :=
  .obj [("product", .str s.product),
        ("analysis_date", .str s.analysis_date),
        ("overall_score", .num (.ofRat s.overall_score)),
        ("total_reviews", .num (.ofInt s.total_reviews)),
        ("sentiment_breakdown", s.sentiment_breakdown.model_dump),
        ("key_themes", .obj (s.key_themes.map fun kv =>
          (kv.1, Jv.arr (kv.2.map ThemeAnalysis.model_dump)))),
        ("recommendation_rate", .num (.ofRat s.recommendation_rate)),
        ("nps_score", .num (.ofInt s.nps_score)),
        ("trend", .str s.trend),
        ("sample_reviews", .arr (s.sample_reviews.map ReviewSample.model_dump)),
        ("confidence_level", .str s.confidence_level)]

/-- The scrape_product_data tool (product_scraper.py:292-311): it
returns result.model_dump(); the scraped ProductInfo is produced by the
external web collaborator and is taken as input here. -/
def scrape_product_data_value (result : ProductInfo) : Jv :=
  result.model_dump

/-- The analyze_competitors tool (competitor_analyzer.py:213-232): it
returns result.model_dump(). -/
def analyze_competitors_value (result : CompetitorAnalysisResult) : Jv :=
  result.model_dump

/-- The analyze_sentiment tool (sentiment_analyzer.py, final tool
wrapper): it returns result.model_dump(). -/
def analyze_sentiment_value (result : SentimentAnalysisResult) : Jv :=
  result.model_dump

/-- The model stub of the happy-path scenario: it calls the three
analysis tools in order, then generate_report, then stops; it decides by
counting the model messages in the transcript it is shown. -/
def happyLLM : LLM := fun ms =>
  match countModelMsgs ms with
  | 0 => ("", [⟨"scrape_product_data", "wireless earbuds", "1"⟩])
  | 1 => ("", [⟨"analyze_competitors", "Electronics", "2"⟩])
  | 2 => ("", [⟨"analyze_sentiment", "wireless earbuds", "3"⟩])
  | 3 => ("", [⟨"generate_report", "data", "4"⟩])
  | _ => ("Here is the analysis.", [])

/-- A registry stub with the four tool names, each returning a fixed
payload; generate_report returns a payload bearing the marker. -/
def happyRegistry : Registry :=
  [("scrape_product_data", fun _ => .ok "product data"),
   ("analyze_competitors", fun _ => .ok "competitor data"),
   ("analyze_sentiment", fun _ => .ok "sentiment data"),
   ("generate_report", fun _ => .ok "# 📊 Market Analysis Report - final")]

/-- The transcript produced by the happy-path scenario. -/
def happyTranscript : List Msg :=
  [Msg.human "Analyze the market for the product: wireless earbuds",
   Msg.ai "" [⟨"scrape_product_data", "wireless earbuds", "1"⟩],
   Msg.tool "scrape_product_data" "product data" false,
   Msg.ai "" [⟨"analyze_competitors", "Electronics", "2"⟩],
   Msg.tool "analyze_competitors" "competitor data" false,
   Msg.ai "" [⟨"analyze_sentiment", "wireless earbuds", "3"⟩],
   Msg.tool "analyze_sentiment" "sentiment data" false,
   Msg.ai "" [⟨"generate_report", "data", "4"⟩],
   Msg.tool "generate_report" "# 📊 Market Analysis Report - final" false,
   Msg.ai "Here is the analysis." []]

/-- A model stub that requests a tool on every turn. -/
def alwaysToolLLM : LLM := fun _ =>
  ("", [⟨"scrape_product_data", "x", "1"⟩])

/-- The executive summary produced when both the product and the
sentiment data are the empty mapping: every field takes its default. -/
def default_executive_summary : String :=
  "\n### Executive Summary\n\n**Analyzed Product** presents a favorable market positioning with a customer satisfaction score of **N/A/5** and a recommendation rate of **0%**.\n\n**Product Description:** A consumer product available across major North American e-commerce platforms.\n\nThe analysis reveals significant opportunities for price positioning optimization and customer experience improvement.\n"

/-- The recommendations produced when the three data mappings are empty:
only the two unconditional recommendations remain. -/
def default_recommendations : String :=
  "\n### 4. Strategic Recommendations\n\n1. **Distribution:** Strengthen presence on high-traffic platforms (Amazon, Walmart, Target, Best Buy)\n2. **Retention:** Implement post-purchase follow-up program to improve NPS\n"

/-- The full report produced when all three arguments fail to parse:
the default executive summary, the three Data-not-available placeholder
sections, the default recommendations and the fixed action plan,
assembled exactly as the generate template does. -/
def degraded_report (now : String) : String :=
  pyStrip ("\n# 📊 Market Analysis Report\n\n**Generation Date:** " ++
    now ++ "\n\n**Market:** North America\n\n---\n\n" ++
    default_executive_summary ++ "\n\n---\n\n" ++
    "### Product Data\n*Data not available*\n" ++ "\n\n" ++
    "### 2. Competitive Analysis\n*Data not available*\n" ++ "\n\n" ++
    "### 3. Customer Sentiment Analysis\n*Data not available*\n" ++ "\n\n" ++
    default_recommendations ++ "\n\n" ++ generate_action_plan ++ "\n")

/-- Whether the first extraction pass takes a message: its content
contains the marker, unless it is a model message whose first tool call
is generate_report (those are skipped). -/
def marker_hit : Msg → Bool
  | .ai c (tc :: _) =>
    (tc.name != "generate_report") && strContains c report_marker
  | m => strContains m.content report_marker

/-- A transcript with a generate_report tool-result followed by a later
model message that also bears the marker. -/
def c3_transcript : List Msg :=
  [Msg.tool "generate_report" "# 📊 Market Analysis Report P" false,
   Msg.ai "Summary: 📊 Market Analysis Report X" []]

/- ------------------------------------------------------------------ -/
/- Helper lemmas                                                      -/
/- ------------------------------------------------------------------ -/

theorem strToList_append (a b : String) :
    (a ++ b).toList = a.toList ++ b.toList := by
  cases a
  cases b
  rfl

theorem strContains_append_mid (a pat b : String) :
    strContains (a ++ pat ++ b) pat = true := by
  unfold strContains
  refine decide_eq_true ⟨a.toList, b.toList, ?_⟩
  rw [strToList_append, strToList_append, List.append_assoc]

theorem strContains_iff (s pat : String) :
    strContains s pat = true ↔ pat.toList <:+: s.toList := by
  simp [strContains]

theorem strContains_of_left (a b pat : String)
    (h : strContains a pat = true) : strContains (a ++ b) pat = true := by
  rw [strContains_iff] at h ⊢
  rw [strToList_append]
  exact h.trans (List.prefix_append _ _).isInfix

theorem strContains_of_right (a b pat : String)
    (h : strContains b pat = true) : strContains (a ++ b) pat = true := by
  rw [strContains_iff] at h ⊢
  rw [strToList_append]
  exact h.trans (List.suffix_append _ _).isInfix

/-- A nonempty pattern whose head the predicate rejects survives a
dropWhile on its host list. -/
theorem infix_dropWhile (p : Char → Bool) (c : Char) (pt : List Char)
    (hp : p c = false) :
    ∀ (l : List Char), (c :: pt) <:+: l → (c :: pt) <:+: l.dropWhile p := by
  intro l
  induction l with
  | nil => intro h; rw [List.infix_nil] at h; simp at h
  | cons x xs ih =>
    intro h
    by_cases hx : p x = true
    · rw [List.dropWhile_cons, if_pos hx]
      rcases List.infix_cons_iff.mp h with hpre | hinf
      · obtain ⟨t, ht⟩ := hpre
        have hcx : c = x := by
          have := congrArg List.head? ht
          simpa using this
        rw [← hcx, hp] at hx
        cases hx
      · exact ih hinf
    · rw [List.dropWhile_cons, if_neg hx]
      exact h

/-- Stripping whitespace from both ends preserves the occurrences of a
pattern that starts and ends with non-whitespace characters. -/
theorem strContains_pyStrip (s pat : String) (c1 c2 : Char)
    (hh : pat.toList.head? = some c1) (hw1 : c1.isWhitespace = false)
    (hl : pat.toList.getLast? = some c2) (hw2 : c2.isWhitespace = false)
    (h : strContains s pat = true) :
    strContains (pyStrip s) pat = true := by
  rw [strContains_iff] at h ⊢
  show pat.toList <:+:
    ((s.toList.dropWhile Char.isWhitespace).reverse.dropWhile
      Char.isWhitespace).reverse
  obtain ⟨pt, hpt⟩ : ∃ pt, pat.toList = c1 :: pt := by
    cases hx : pat.toList with
    | nil => rw [hx] at hh; cases hh
    | cons a t =>
      rw [hx] at hh
      injection hh with ha
      exact ⟨t, by rw [ha]⟩
  have h1 : pat.toList <:+: s.toList.dropWhile Char.isWhitespace := by
    rw [hpt] at h ⊢
    exact infix_dropWhile _ _ _ hw1 _ h
  have h2 : pat.toList.reverse <:+:
      (s.toList.dropWhile Char.isWhitespace).reverse :=
    List.reverse_infix.mpr h1
  obtain ⟨rt, hrt⟩ : ∃ rt, pat.toList.reverse = c2 :: rt := by
    have h3 : pat.toList.reverse.head? = some c2 := by
      rw [List.head?_reverse]; exact hl
    cases hx : pat.toList.reverse with
    | nil => rw [hx] at h3; cases h3
    | cons a t =>
      rw [hx] at h3
      injection h3 with ha
      exact ⟨t, by rw [ha]⟩
  rw [hrt] at h2
  have h4 := infix_dropWhile Char.isWhitespace c2 rt hw2 _ h2
  rw [← hrt] at h4
  exact List.reverse_infix.mp (by simpa using h4)

theorem agent_node_shape (llm : LLM) (msgs : List Msg) :
    agent_node llm msgs =
      Msg.ai (llm (Msg.system system_prompt :: msgs)).1
             (llm (Msg.system system_prompt :: msgs)).2 := rfl

theorem shouldContinue_concat (msgs : List Msg) (c : String)
    (tcs : List ToolCall) :
    shouldContinue (msgs ++ [Msg.ai c tcs]) =
      some (if tcs.isEmpty then .stop else .cont) := by
  unfold shouldContinue
  rw [List.getLast?_concat]

/-- One unfolding of the loop: a model turn, then either stop or a tool
pass followed by the rest of the loop. -/
theorem invoke_loop_succ (llm : LLM) (reg : Registry) (n : Nat)
    (msgs : List Msg) :
    invoke_loop llm reg (n + 1) msgs =
      if (agent_node llm msgs).tool_calls.isEmpty then
        .ok (msgs ++ [agent_node llm msgs])
      else
        invoke_loop llm reg n
          ((msgs ++ [agent_node llm msgs]) ++
            tool_node reg (agent_node llm msgs).tool_calls) := by
  show (match shouldContinue (msgs ++ [agent_node llm msgs]) with
    | some .cont =>
      invoke_loop llm reg n
        ((msgs ++ [agent_node llm msgs]) ++
          tool_node reg (agent_node llm msgs).tool_calls)
    | _ => .ok (msgs ++ [agent_node llm msgs])) = _
  rw [agent_node_shape, shouldContinue_concat]
  by_cases h : (llm (Msg.system system_prompt :: msgs)).2.isEmpty
  · simp [h, Msg.tool_calls]
  · simp [h, Msg.tool_calls]

theorem dispatch_isToolResult (reg : Registry) (tc : ToolCall) :
    (dispatch_tool_call reg tc).isToolResult = true := by
  unfold dispatch_tool_call
  split
  · rfl
  · split <;> rfl

theorem isToolResult_kind (m : Msg) (h : m.isToolResult = true) :
    m.isModel = false ∧ m.isSystem = false ∧ m.isHuman = false := by
  cases m <;>
    simp [Msg.isToolResult, Msg.isModel, Msg.isSystem, Msg.isHuman] at h ⊢

theorem countModel_append (a b : List Msg) :
    countModelMsgs (a ++ b) = countModelMsgs a + countModelMsgs b :=
  List.countP_append _ _ _

theorem countSystem_append (a b : List Msg) :
    countSystemMsgs (a ++ b) = countSystemMsgs a + countSystemMsgs b :=
  List.countP_append _ _ _

theorem countHuman_append (a b : List Msg) :
    countHumanMsgs (a ++ b) = countHumanMsgs a + countHumanMsgs b :=
  List.countP_append _ _ _

theorem countModel_agent (llm : LLM) (msgs : List Msg) :
    countModelMsgs [agent_node llm msgs] = 1 := by
  rw [agent_node_shape]; rfl

theorem countSystem_agent (llm : LLM) (msgs : List Msg) :
    countSystemMsgs [agent_node llm msgs] = 0 := by
  rw [agent_node_shape]; rfl

theorem countHuman_agent (llm : LLM) (msgs : List Msg) :
    countHumanMsgs [agent_node llm msgs] = 0 := by
  rw [agent_node_shape]; rfl

theorem countModel_tool_node (reg : Registry) (tcs : List ToolCall) :
    countModelMsgs (tool_node reg tcs) = 0 := by
  unfold countModelMsgs tool_node
  rw [List.countP_map, List.countP_eq_zero]
  intro tc _
  simp only [Function.comp]
  rw [(isToolResult_kind _ (dispatch_isToolResult reg tc)).1]
  simp

theorem countSystem_tool_node (reg : Registry) (tcs : List ToolCall) :
    countSystemMsgs (tool_node reg tcs) = 0 := by
  unfold countSystemMsgs tool_node
  rw [List.countP_map, List.countP_eq_zero]
  intro tc _
  simp only [Function.comp]
  rw [(isToolResult_kind _ (dispatch_isToolResult reg tc)).2.1]
  simp

theorem countHuman_tool_node (reg : Registry) (tcs : List ToolCall) :
    countHumanMsgs (tool_node reg tcs) = 0 := by
  unfold countHumanMsgs tool_node
  rw [List.countP_map, List.countP_eq_zero]
  intro tc _
  simp only [Function.comp]
  rw [(isToolResult_kind _ (dispatch_isToolResult reg tc)).2.2]
  simp

/-- The number of model invocations of a successful graph execution is
bounded by the fuel plus the model messages already present. -/
theorem invoke_ok_countModel (llm : LLM) (reg : Registry) :
    ∀ (n : Nat) (msgs final : List Msg),
      invoke_loop llm reg n msgs = .ok final →
      countModelMsgs final ≤ countModelMsgs msgs + n := by
  intro n
  induction n with
  | zero => intro msgs final h; simp [invoke_loop] at h
  | succ n ih =>
    intro msgs final h
    rw [invoke_loop_succ] at h
    by_cases he : (agent_node llm msgs).tool_calls.isEmpty
    · rw [if_pos he] at h
      cases h
      rw [countModel_append, countModel_agent]
      omega
    · rw [if_neg he] at h
      have hb := ih _ _ h
      rw [countModel_append, countModel_append, countModel_agent,
        countModel_tool_node] at hb
      omega

/-- A successful graph execution ends on a model message with no tool
calls: emitting none is the only normal termination. -/
theorem invoke_ok_last (llm : LLM) (reg : Registry) :
    ∀ (n : Nat) (msgs final : List Msg),
      invoke_loop llm reg n msgs = .ok final →
      ∃ c, final.getLast? = some (Msg.ai c []) := by
  intro n
  induction n with
  | zero => intro msgs final h; simp [invoke_loop] at h
  | succ n ih =>
    intro msgs final h
    rw [invoke_loop_succ] at h
    by_cases he : (agent_node llm msgs).tool_calls.isEmpty
    · rw [if_pos he] at h
      cases h
      refine ⟨(llm (Msg.system system_prompt :: msgs)).1, ?_⟩
      have h2 : (llm (Msg.system system_prompt :: msgs)).2 = [] :=
        List.isEmpty_iff.mp he
      rw [List.getLast?_concat, agent_node_shape, h2]
    · rw [if_neg he] at h
      exact ih _ _ h

/-- With a model that requests a tool on every turn, the loop always
exhausts its budget. -/
theorem invoke_always_tool (llm : LLM) (reg : Registry)
    (halways : ∀ ms, (llm ms).2 ≠ []) :
    ∀ (n : Nat) (msgs : List Msg),
      invoke_loop llm reg n msgs = .error .loopBudgetExceeded := by
  intro n
  induction n with
  | zero => intro msgs; rfl
  | succ n ih =>
    intro msgs
    rw [invoke_loop_succ]
    have h : ¬ ((agent_node llm msgs).tool_calls.isEmpty = true) := by
      rw [agent_node_shape]
      show ¬ ((llm (Msg.system system_prompt :: msgs)).2.isEmpty = true)
      rw [List.isEmpty_iff]
      exact halways _
    rw [if_neg h]
    exact ih _

/-- The loop appends only model and tool-result messages: the system and
human message counts are preserved. -/
theorem invoke_ok_counts (llm : LLM) (reg : Registry) :
    ∀ (n : Nat) (msgs final : List Msg),
      invoke_loop llm reg n msgs = .ok final →
      countSystemMsgs final = countSystemMsgs msgs ∧
      countHumanMsgs final = countHumanMsgs msgs := by
  intro n
  induction n with
  | zero => intro msgs final h; simp [invoke_loop] at h
  | succ n ih =>
    intro msgs final h
    rw [invoke_loop_succ] at h
    by_cases he : (agent_node llm msgs).tool_calls.isEmpty
    · rw [if_pos he] at h
      cases h
      rw [countSystem_append, countSystem_agent, countHuman_append,
        countHuman_agent]
      omega
    · rw [if_neg he] at h
      have hb := ih _ _ h
      rw [countSystem_append, countSystem_append, countSystem_agent,
        countSystem_tool_node, countHuman_append, countHuman_append,
        countHuman_agent, countHuman_tool_node] at hb
      omega

/-- Every transcript message is of exactly one kind. -/
theorem length_partition : ∀ (msgs : List Msg),
    msgs.length = countSystemMsgs msgs + countHumanMsgs msgs +
      countModelMsgs msgs + countToolMsgs msgs := by
  intro msgs
  induction msgs with
  | nil => rfl
  | cons m rest ih =>
    simp [countSystemMsgs, countHumanMsgs, countModelMsgs, countToolMsgs,
      List.countP_cons] at ih ⊢
    cases m <;>
      simp [Msg.isSystem, Msg.isHuman, Msg.isModel, Msg.isToolResult] <;>
      omega

/-- The first extraction pass is the find-first of marker_hit over the
(already reversed) message list, returning the content. -/
theorem marker_pass_eq_find : ∀ (l : List Msg),
    marker_pass l = (l.find? marker_hit).map Msg.content := by
  intro l
  induction l with
  | nil => rfl
  | cons m rest ih =>
    cases m with
    | ai c tcs =>
      cases tcs with
      | nil =>
        by_cases h : strContains (Msg.ai c []).content report_marker
        · simp [marker_pass, h, List.find?, marker_hit]
        · simp only [Bool.not_eq_true] at h
          simp [marker_pass, h, List.find?, marker_hit, ih]
      | cons tc tcs =>
        by_cases hg : tc.name = "generate_report"
        · have hm : marker_hit (Msg.ai c (tc :: tcs)) = false := by
            simp [marker_hit, hg]
          simp [marker_pass, hg, List.find?, hm, ih]
        · by_cases h : strContains c report_marker
          · have hm : marker_hit (Msg.ai c (tc :: tcs)) = true := by
              simp [marker_hit, hg, h]
            simp [marker_pass, hg, h, List.find?, hm, Msg.content]
          · simp only [Bool.not_eq_true] at h
            have hm : marker_hit (Msg.ai c (tc :: tcs)) = false := by
              simp [marker_hit, hg, h]
            simp [marker_pass, hg, h, List.find?, hm, ih, Msg.content]
    | system c =>
      by_cases h : strContains (Msg.system c).content report_marker
      · simp [marker_pass, h, List.find?, marker_hit]
      · simp only [Bool.not_eq_true] at h
        simp [marker_pass, h, List.find?, marker_hit, ih]
    | human c =>
      by_cases h : strContains (Msg.human c).content report_marker
      · simp [marker_pass, h, List.find?, marker_hit]
      · simp only [Bool.not_eq_true] at h
        simp [marker_pass, h, List.find?, marker_hit, ih]
    | tool nm c e =>
      by_cases h : strContains (Msg.tool nm c e).content report_marker
      · simp [marker_pass, h, List.find?, marker_hit]
      · simp only [Bool.not_eq_true] at h
        simp [marker_pass, h, List.find?, marker_hit, ih]

/- ------------------------------------------------------------------ -/
/- Claim theorems                                                     -/
/- ------------------------------------------------------------------ -/

/-- C1: after a model turn (the last transcript message is a model
message), the continuation decision is "continue" exactly when that
message carries one or more tool-call requests and "end" exactly when it
carries none; and normal loop termination happens only on a model
message with no tool calls (the only other halt is the turn-count
ceiling, which yields an error instead of a transcript). -/
theorem c1_continuation_decision (msgs : List Msg) (c : String)
    (tcs : List ToolCall) (h : msgs.getLast? = some (.ai c tcs)) :
    (shouldContinue msgs = some .cont ↔ tcs ≠ []) ∧
    (shouldContinue msgs = some .stop ↔ tcs = []) ∧
    (∀ (llm : LLM) (reg : Registry) (n : Nat) (start final : List Msg),
      invoke_loop llm reg n start = .ok final →
      ∃ c2, final.getLast? = some (Msg.ai c2 [])) := by
  refine ⟨?_, ?_, fun llm reg n start final hok =>
    invoke_ok_last llm reg n start final hok⟩ <;>
  · unfold shouldContinue
    rw [h]
    cases tcs <;> simp

/-- Witness for C1 at concrete transcripts. -/
theorem c1_continuation_decision_witness :
    shouldContinue [Msg.ai "" [⟨"scrape_product_data", "x", "1"⟩]] =
      some Decision.cont ∧
    shouldContinue [Msg.ai "Done" []] = some Decision.stop :=
  ⟨(c1_continuation_decision [Msg.ai "" [⟨"scrape_product_data", "x", "1"⟩]]
      "" [⟨"scrape_product_data", "x", "1"⟩] rfl).1.mpr (by decide),
   (c1_continuation_decision [Msg.ai "Done" []] "Done" [] rfl).2.1.mpr rfl⟩

/-- C2: every run halts within the configured maximum number of model
invocations (a successful final transcript holds at most that many model
messages), and a model collaborator that requests a tool on every turn
forces the LoopBudgetExceeded error instead of looping forever. -/
theorem c2_termination_within_budget (llm : LLM) (reg : Registry)
    (max_turns : Nat) (product_name : String) :
    (∀ final,
      invoke_loop llm reg max_turns (initial_messages product_name) = .ok final →
      countModelMsgs final ≤ max_turns) ∧
    ((∀ ms, (llm ms).2 ≠ []) →
      run llm reg max_turns product_name = .error .loopBudgetExceeded) := by
  constructor
  · intro final h
    have hb := invoke_ok_countModel llm reg max_turns _ final h
    simpa [countModelMsgs, initial_messages, Msg.isModel] using hb
  · intro halways
    unfold run
    rw [invoke_always_tool llm reg halways max_turns _]

/-- Witness for C2: the happy-path run stays within budget, and the
always-requesting stub hits the budget error with max_turns = 3. -/
theorem c2_termination_within_budget_witness :
    countModelMsgs happyTranscript ≤ 25 ∧
    run alwaysToolLLM [] 3 "x" = .error .loopBudgetExceeded :=
  ⟨(c2_termination_within_budget happyLLM happyRegistry 25
      "wireless earbuds").1 happyTranscript rfl,
   (c2_termination_within_budget alwaysToolLLM [] 3 "x").2
      (fun _ => by simp [alwaysToolLLM])⟩

/-- C3 counterexample: a transcript holding a generate_report
tool-result whose payload bears the marker, followed by a later model
message that also bears the marker; the extractor returns the later
model message content, not the tool-result payload the claim
requires. -/
theorem c3_extractor_counterexample :
    extract_final_report c3_transcript =
      "Summary: 📊 Market Analysis Report X" ∧
    extract_final_report c3_transcript ≠
      "# 📊 Market Analysis Report P" := by
  constructor
  · rfl
  · decide

/-- C3 amended: the extractor scans in reverse for any message whose
content contains the marker (skipping model messages whose first tool
call is generate_report), so a generate_report tool-result payload
bearing the marker is returned exactly when no later message matches the
marker scan. -/
theorem c3_extractor_order (pre post : List Msg) (payload : String)
    (hp : strContains payload report_marker = true)
    (hpost : ∀ m ∈ post, marker_hit m = false) :
    extract_final_report
      (pre ++ Msg.tool "generate_report" payload false :: post) = payload := by
  have hrev : (pre ++ Msg.tool "generate_report" payload false :: post).reverse
      = post.reverse ++ Msg.tool "generate_report" payload false :: pre.reverse := by
    simp
  have h1 : post.reverse.find? marker_hit = none :=
    List.find?_eq_none.mpr (fun x hx => by
      simp [hpost x (List.mem_reverse.mp hx)])
  have h2 : marker_hit (Msg.tool "generate_report" payload false) = true := by
    simpa [marker_hit, Msg.content] using hp
  have hfind :
      marker_pass
        (pre ++ Msg.tool "generate_report" payload false :: post).reverse =
      some payload := by
    rw [hrev, marker_pass_eq_find, List.find?_append, h1]
    simp [List.find?, h2, Msg.content]
  have hne : payload ≠ "" := by
    intro h0
    rw [h0] at hp
    exact absurd hp (by decide)
  simp only [extract_final_report]
  rw [hfind]
  simp [hne]

/-- Witness for C3 amended: a generate_report tool-result followed by a
marker-free model wrap-up; the payload is extracted. -/
theorem c3_extractor_order_witness :
    extract_final_report
      ([] ++ Msg.tool "generate_report" "# 📊 Market Analysis Report P" false ::
        [Msg.ai "All done." []]) = "# 📊 Market Analysis Report P" :=
  c3_extractor_order [] [Msg.ai "All done." []]
    "# 📊 Market Analysis Report P" (by decide) (by decide)

/-- C4 counterexample: in the happy-path scenario (three analysis tools,
then generate_report, then a terminal model turn) steps_executed is 10,
the length of the final transcript, not the 4 model turns the claim
expects. -/
theorem c4_steps_counterexample :
    (run happyLLM happyRegistry 25 "wireless earbuds").map
      RunResult.steps_executed = .ok 10 ∧ (10 : Nat) ≠ 4 :=
  ⟨rfl, by decide⟩

/-- C4 amended: steps_executed equals the total length of the final
transcript — the one seed human message plus one message per model turn
plus one message per tool result — not the number of model turns
alone. -/
theorem c4_steps_executed_is_transcript_length (llm : LLM)
    (reg : Registry) (max_turns : Nat) (product_name : String)
    (final : List Msg)
    (h : invoke_loop llm reg max_turns (initial_messages product_name) = .ok final) :
    run llm reg max_turns product_name =
      .ok ⟨product_name, extract_final_report final, final.length⟩ ∧
    final.length = 1 + countModelMsgs final + countToolMsgs final := by
  constructor
  · unfold run
    rw [h]
  · have hp := length_partition final
    have hc := invoke_ok_counts llm reg max_turns _ final h
    have hs : countSystemMsgs (initial_messages product_name) = 0 := rfl
    have hh : countHumanMsgs (initial_messages product_name) = 1 := rfl
    rw [hs] at hc
    rw [hh] at hc
    omega

/-- Witness for C4 amended at the happy-path scenario. -/
theorem c4_steps_executed_witness :
    run happyLLM happyRegistry 25 "wireless earbuds" =
      .ok ⟨"wireless earbuds", extract_final_report happyTranscript,
        happyTranscript.length⟩ ∧
    happyTranscript.length =
      1 + countModelMsgs happyTranscript + countToolMsgs happyTranscript :=
  c4_steps_executed_is_transcript_length happyLLM happyRegistry 25
    "wireless earbuds" happyTranscript rfl

/-- C5: when a tool body raises, the contract wrapper intercepts the
exception and rethrows it as a ToolError carrying the tool name and the
original failure message; and every failure the caller can observe from
the wrapper is such a ToolError tagged with the tool name — never the
raw internal exception. -/
theorem c5_tool_error_wrapping {α β : Type} (tool_name : String)
    (f : α → Except String β) (x : α) (e : String)
    (h : f x = .error e) :
    tool_error_handler tool_name f x = .error ⟨tool_name, e⟩ ∧
    (ToolError.mk tool_name e).toStr = "[" ++ tool_name ++ "] " ++ e ∧
    (∀ (x2 : α) (err : ToolError),
      tool_error_handler tool_name f x2 = .error err →
      err.tool_name = tool_name) := by
  refine ⟨?_, rfl, ?_⟩
  · unfold tool_error_handler
    rw [h]
  · intro x2 err h2
    unfold tool_error_handler at h2
    cases hf : f x2 with
    | ok y => rw [hf] at h2; cases h2
    | error e2 => rw [hf] at h2; cases h2; rfl

/-- Witness for C5 at a concrete always-raising tool body. -/
theorem c5_tool_error_wrapping_witness :
    tool_error_handler "scrape_product_data"
      (fun (_ : Nat) => (Except.error "boom" : Except String Nat)) 0 =
      .error ⟨"scrape_product_data", "boom"⟩ :=
  (c5_tool_error_wrapping "scrape_product_data"
    (fun _ => Except.error "boom") 0 "boom" rfl).1

/-- C6: a tool-call whose body raises is converted into a failed
tool-result message carrying the failure text (dispatched in place for
every occurrence in the turn), and the loop then unconditionally hands
control back to the model for the next turn instead of letting the
exception abort the run. -/
theorem c6_tool_failure_absorbed (llm : LLM) (reg : Registry) (n : Nat)
    (msgs : List Msg) (tc : ToolCall)
    (f : String → Except String String) (e : String)
    (hf : List.lookup tc.name reg = some f)
    (he : f tc.args = .error e)
    (hne : (agent_node llm msgs).tool_calls ≠ []) :
    dispatch_tool_call reg tc =
      Msg.tool tc.name ("Error: " ++ e ++ " Please fix your mistakes.") true ∧
    (∀ tcs, tc ∈ tcs →
      Msg.tool tc.name ("Error: " ++ e ++ " Please fix your mistakes.") true ∈
        tool_node reg tcs) ∧
    invoke_loop llm reg (n + 1) msgs =
      invoke_loop llm reg n
        ((msgs ++ [agent_node llm msgs]) ++
          tool_node reg (agent_node llm msgs).tool_calls) := by
  have hdisp : dispatch_tool_call reg tc =
      Msg.tool tc.name ("Error: " ++ e ++ " Please fix your mistakes.") true := by
    simp [dispatch_tool_call, hf, he]
  refine ⟨hdisp, ?_, ?_⟩
  · intro tcs htc
    rw [← hdisp]
    exact List.mem_map_of_mem _ htc
  · rw [invoke_loop_succ]
    rw [if_neg (by
      rw [List.isEmpty_iff]
      exact hne)]

/-- Witness for C6 at a concrete always-raising tool. -/
theorem c6_tool_failure_absorbed_witness :
    dispatch_tool_call [("boom", fun _ => Except.error "kaboom")]
      ⟨"boom", "x", "1"⟩ =
      Msg.tool "boom" "Error: kaboom Please fix your mistakes." true :=
  (c6_tool_failure_absorbed (fun _ => ("", [⟨"boom", "x", "1"⟩]))
    [("boom", fun _ => Except.error "kaboom")] 1 (initial_messages "p")
    ⟨"boom", "x", "1"⟩ (fun _ => Except.error "kaboom") "kaboom"
    rfl rfl (by decide)).1

/-- C7: a tool-call naming a tool absent from the registry is converted
into a failed tool-result message whose error text mentions the
requested name, and the loop then hands control back to the model for a
further turn instead of aborting. -/
theorem c7_unknown_tool_dispatch (llm : LLM) (reg : Registry) (n : Nat)
    (msgs : List Msg) (tc : ToolCall)
    (hf : List.lookup tc.name reg = none)
    (hne : (agent_node llm msgs).tool_calls ≠ []) :
    dispatch_tool_call reg tc =
      Msg.tool tc.name ("Error: " ++ tc.name ++ " is not a valid tool.") true ∧
    strContains ("Error: " ++ tc.name ++ " is not a valid tool.") tc.name = true ∧
    invoke_loop llm reg (n + 1) msgs =
      invoke_loop llm reg n
        ((msgs ++ [agent_node llm msgs]) ++
          tool_node reg (agent_node llm msgs).tool_calls) := by
  refine ⟨?_, ?_, ?_⟩
  · unfold dispatch_tool_call
    rw [hf]
  · exact strContains_append_mid "Error: " tc.name " is not a valid tool."
  · rw [invoke_loop_succ]
    rw [if_neg (by
      rw [List.isEmpty_iff]
      exact hne)]

/-- Witness for C7 at the nonexistent_tool scenario. -/
theorem c7_unknown_tool_dispatch_witness :
    dispatch_tool_call [] ⟨"nonexistent_tool", "x", "1"⟩ =
      Msg.tool "nonexistent_tool"
        ("Error: " ++ "nonexistent_tool" ++ " is not a valid tool.") true ∧
    strContains ("Error: " ++ "nonexistent_tool" ++ " is not a valid tool.")
      "nonexistent_tool" = true :=
  ⟨(c7_unknown_tool_dispatch (fun _ => ("", [⟨"nonexistent_tool", "x", "1"⟩]))
      [] 1 (initial_messages "p") ⟨"nonexistent_tool", "x", "1"⟩ rfl
      (by decide)).1,
   (c7_unknown_tool_dispatch (fun _ => ("", [⟨"nonexistent_tool", "x", "1"⟩]))
      [] 1 (initial_messages "p") ⟨"nonexistent_tool", "x", "1"⟩ rfl
      (by decide)).2.1⟩

/-- C8 counterexample: generate_report succeeds on concrete inputs and
its success value is not a mapping (it is a bare Markdown string), so
not every registered tool returns a schema-shaped mapping on success. -/
theorem c8_report_not_mapping_counterexample :
    (generate_report_value none none none "10/12/2025 00:00").map Jv.isObj =
      .ok false := rfl

/-- C8 amended: the three analysis tools always return a schema-shaped
mapping (the pydantic model_dump of their result models), while the
report tool never returns a mapping on success — its artifact is a bare
Markdown string. -/
theorem c8_tool_result_shapes (p : ProductInfo)
    (c : CompetitorAnalysisResult) (s : SentimentAnalysisResult)
    (pd cd sd : Option Jv) (now : String) :
    (scrape_product_data_value p).isObj = true ∧
    (analyze_competitors_value c).isObj = true ∧
    (analyze_sentiment_value s).isObj = true ∧
    (generate_report_value pd cd sd now).map Jv.isObj ≠ .ok true := by
  refine ⟨rfl, rfl, rfl, ?_⟩
  unfold generate_report_value
  cases generate pd cd sd now with
  | ok r => simp [Except.map, Jv.isObj]
  | error e => simp [Except.map]

/-- C9 counterexample: the transcript seeded by run consists of exactly
one human message and no system-instruction message; the policy text is
not part of the initial conversation state. -/
theorem c9_no_system_message_counterexample :
    initial_messages "wireless earbuds" =
      [Msg.human "Analyze the market for the product: wireless earbuds"] ∧
    countSystemMsgs (initial_messages "wireless earbuds") = 0 :=
  ⟨rfl, rfl⟩

/-- C9 amended: the transcript is seeded with exactly one human message
naming the subject and no system message; the fixed policy text is
instead prepended to the message list shown to the model on every agent
turn, and no system message is ever appended to the transcript (a
successful final transcript still contains zero system messages and
exactly one human message). -/
theorem c9_seeding_amended (product_name : String) (llm : LLM)
    (reg : Registry) (n : Nat) (msgs final : List Msg)
    (h : invoke_loop llm reg n (initial_messages product_name) = .ok final) :
    initial_messages product_name =
      [Msg.human ("Analyze the market for the product: " ++ product_name)] ∧
    agent_node llm msgs =
      Msg.ai (llm (Msg.system system_prompt :: msgs)).1
             (llm (Msg.system system_prompt :: msgs)).2 ∧
    countSystemMsgs final = 0 ∧ countHumanMsgs final = 1 := by
  have hc := invoke_ok_counts llm reg n _ final h
  exact ⟨rfl, rfl, hc.1, hc.2⟩

/-- Witness for C9 amended at the happy-path run. -/
theorem c9_seeding_amended_witness :
    initial_messages "wireless earbuds" =
      [Msg.human ("Analyze the market for the product: " ++ "wireless earbuds")] ∧
    agent_node happyLLM [] =
      Msg.ai (happyLLM [Msg.system system_prompt]).1
             (happyLLM [Msg.system system_prompt]).2 ∧
    countSystemMsgs happyTranscript = 0 ∧
    countHumanMsgs happyTranscript = 1 :=
  c9_seeding_amended "wireless earbuds" happyLLM happyRegistry 25 []
    happyTranscript rfl

set_option maxRecDepth 8192 in
set_option maxHeartbeats 1000000 in
/-- C10: an argument that is not valid JSON parses to the empty mapping
rather than failing; the corresponding report sections degrade to the
Data-not-available placeholder; and the tool still returns a complete
Markdown report containing the executive summary, the strategic
recommendations and the action plan with default values. -/
theorem c10_invalid_json_degrades (now : String) :
    parse_json_safely none = Jv.obj [] ∧
    generate_product_section (Jv.obj []) =
      .ok "### Product Data\n*Data not available*\n" ∧
    generate_competitor_section (Jv.obj []) =
      .ok "### 2. Competitive Analysis\n*Data not available*\n" ∧
    generate_sentiment_section (Jv.obj []) =
      .ok "### 3. Customer Sentiment Analysis\n*Data not available*\n" ∧
    generate none none none now = .ok (degraded_report now) ∧
    strContains (degraded_report now) "### Executive Summary" = true ∧
    strContains (degraded_report now) "*Data not available*" = true ∧
    strContains (degraded_report now) "### 4. Strategic Recommendations" = true ∧
    strContains (degraded_report now) "### 5. Action Plan" = true := by
  refine ⟨rfl, rfl, rfl, rfl, rfl, ?_, ?_, ?_, ?_⟩
  · simp only [degraded_report]
    refine strContains_pyStrip _ _ '#' 'y' (by decide) (by decide)
      (by decide) (by decide) ?_
    apply strContains_of_left; apply strContains_of_left
    apply strContains_of_left; apply strContains_of_left
    apply strContains_of_left; apply strContains_of_left
    apply strContains_of_left; apply strContains_of_left
    apply strContains_of_left; apply strContains_of_left
    apply strContains_of_left
    apply strContains_of_right
    decide
  · simp only [degraded_report]
    refine strContains_pyStrip _ _ '*' '*' (by decide) (by decide)
      (by decide) (by decide) ?_
    apply strContains_of_left; apply strContains_of_left
    apply strContains_of_left; apply strContains_of_left
    apply strContains_of_left; apply strContains_of_left
    apply strContains_of_left; apply strContains_of_left
    apply strContains_of_left
    apply strContains_of_right
    decide
  · simp only [degraded_report]
    refine strContains_pyStrip _ _ '#' 's' (by decide) (by decide)
      (by decide) (by decide) ?_
    apply strContains_of_left; apply strContains_of_left
    apply strContains_of_left
    apply strContains_of_right
    decide
  · simp only [degraded_report]
    refine strContains_pyStrip _ _ '#' 'n' (by decide) (by decide)
      (by decide) (by decide) ?_
    apply strContains_of_left
    apply strContains_of_right
    decide

end MarketAnalysis




